import Mathlib

set_option autoImplicit false

namespace ColourSpec

/-!
Shallow embedding of the `colour` repository excerpt: the deprecation /
attribute-redirection mechanism declared in `colour/biochemistry/__init__.py`
(whose engine, `colour.utilities.deprecation`, is modelled from the
specification because its source is not part of the excerpt), and the
blackbody spectral-distribution construction of
`colour/colorimetry/blackbody.py`.
-/

/-- Modelled from the spec: a `ChangeRule` is a tagged variant over the kinds
Renamed, Removed, FutureRenamed, FutureRemoved and Changed; every kind carries
the old fully-qualified name, Renamed/FutureRenamed additionally carry the new
fully-qualified name, and Changed carries a human-readable message.  The
defining module `colour.utilities.deprecation` is not in the excerpt. -/
inductive ChangeRule where
  | Renamed (oldName newName : String)
  | Removed (oldName : String)
  | FutureRenamed (oldName newName : String)
  | FutureRemoved (oldName : String)
  | Changed (oldName : String) (message : String)
  deriving DecidableEq

/-- Modelled from the spec: the `ChangeTable` is an ordered mapping from old
unqualified attribute name (the final path segment) to its `ChangeRule`,
represented as an association list with unique keys kept in insertion order. -/
abbrev ChangeTable : Type := List (String × ChangeRule)

/-- The last dotted segment of a qualified name: the characters after the
final dot (the whole string when it has no dot). -/
def lastSegment (s : String) : String :=
  String.mk (s.toList.foldl (fun acc c => if c = '.' then [] else acc ++ [c]) [])

/-- Ordinary mapping insertion on the table: when the key is already present
the stored rule is overwritten in place (last write wins, no error), otherwise
the binding is appended. -/
def tableInsert (t : ChangeTable) (k : String) (r : ChangeRule) : ChangeTable :=
  if t.any (fun p => p.1 == k) then
    t.map (fun p => if p.1 == k then (k, r) else p)
  else
    t ++ [(k, r)]

/-- Look a key up in the table. -/
def tableLookup (t : ChangeTable) (k : String) : Option ChangeRule :=
  (t.find? (fun p => p.1 == k)).map (fun p => p.2)

/-- The input of the table builder: a mapping from change-kind label to a
sequence of rule descriptors, mirroring the keys accepted by
`build_API_changes` (for example `API_CHANGES` in
`colour/biochemistry/__init__.py` uses the `ObjectRenamed` label). -/
structure APIChangesInput where
  objectRenamed : List (String × String)
  objectRemoved : List String
  objectFutureRenamed : List (String × String)
  objectFutureRemoved : List String
  changedRules : List (String × String)

/-- Modelled from the spec: `build_API_changes` (from the missing module
`colour.utilities.deprecation`) produces a `ChangeTable` keyed by the last
dotted segment of each rule's old name; rules are inserted in declaration
order and a colliding key is silently overwritten (last write wins). -/
def build_API_changes (input : APIChangesInput) : ChangeTable :=
  let t1 := input.objectRenamed.foldl
    (fun t p => tableInsert t (lastSegment p.1) (ChangeRule.Renamed p.1 p.2)) []
  let t2 := input.objectRemoved.foldl
    (fun t o => tableInsert t (lastSegment o) (ChangeRule.Removed o)) t1
  let t3 := input.objectFutureRenamed.foldl
    (fun t p => tableInsert t (lastSegment p.1) (ChangeRule.FutureRenamed p.1 p.2)) t2
  let t4 := input.objectFutureRemoved.foldl
    (fun t o => tableInsert t (lastSegment o) (ChangeRule.FutureRemoved o)) t3
  input.changedRules.foldl
    (fun t p => tableInsert t (lastSegment p.1) (ChangeRule.Changed p.1 p.2)) t4

/-- A module object: its registry name and its ordinary attributes, with
values drawn from an abstract object type `α`. -/
structure PyModule (α : Type) where
  modName : String
  attrs : List (String × α)

/-- Ordinary attribute lookup on the wrapped module. -/
def PyModule.getattr {α : Type} (m : PyModule α) (n : String) : Option α :=
  (m.attrs.find? (fun p => p.1 == n)).map (fun p => p.2)

/-- The warning text emitted for a Renamed rule, as fixed by the spec. -/
def renamed_warning (oldName newName : String) : String :=
  oldName ++ " attribute is no longer available, please use \x27" ++
    newName ++ "\x27 attribute."

/-- Modelled from the spec: the FutureRenamed warning is the analogous
future-tense phrasing of the Renamed warning (exact wording unspecified). -/
def future_renamed_warning (oldName newName : String) : String :=
  oldName ++ " attribute will no longer be available, please use \x27" ++
    newName ++ "\x27 attribute."

/-- Modelled from the spec: the FutureRemoved warning is a future-tense
deprecation notice carrying the old name (exact wording unspecified). -/
def future_removed_warning (oldName : String) : String :=
  oldName ++ " attribute will no longer be available."

/-- The outcome of one attribute resolution: a value together with the
warnings emitted on the way, or one of the two fatal errors of the error
surface (`AttributeRemoved`, `AttributeNotFound`). -/
inductive Resolution (α : Type) where
  | ok (value : α) (warnings : List String)
  | attributeRemoved (oldName : String)
  | attributeNotFound (moduleName attributeName : String)
  deriving DecidableEq

/-- Modelled from the spec: attribute resolution on the `RedirectingModule`
(the `ModuleAPI.__getattr__` of the missing module
`colour.utilities.deprecation`).  `root` resolves a fully-qualified dotted
name from the known root namespace.  The table is consulted first; a miss
falls through to ordinary attribute lookup on the wrapped module, failing
with `AttributeNotFound` naming the module and the attribute.  The spec
assumes the new target of a (Future)Renamed rule resolves; when it does not,
the lookup fails as not found. -/
def resolve {α : Type} (root : String → Option α) (m : PyModule α)
    (t : ChangeTable) (name : String) : Resolution α :=
  match tableLookup t name with
  | some (ChangeRule.Renamed o nw) =>
    match root nw with
    | some v => Resolution.ok v [renamed_warning o nw]
    | none => Resolution.attributeNotFound m.modName name
  | some (ChangeRule.Removed o) => Resolution.attributeRemoved o
  | some (ChangeRule.FutureRenamed o nw) =>
    match root nw with
    | some v => Resolution.ok v [future_renamed_warning o nw]
    | none => Resolution.attributeNotFound m.modName name
  | some (ChangeRule.FutureRemoved o) =>
    match m.getattr name with
    | some v => Resolution.ok v [future_removed_warning o]
    | none => Resolution.attributeNotFound m.modName name
  | some (ChangeRule.Changed _ msg) =>
    match m.getattr name with
    | some v => Resolution.ok v [msg]
    | none => Resolution.attributeNotFound m.modName name
  | none =>
    match m.getattr name with
    | some v => Resolution.ok v []
    | none => Resolution.attributeNotFound m.modName name

/-- `API_CHANGES` of `colour/biochemistry/__init__.py`: two `ObjectRenamed`
descriptors fixing the `Micheal` misspelling. -/
def API_CHANGES : APIChangesInput where
  objectRenamed := [
    ("colour.biochemistry.reaction_rate_MichealisMenten",
     "colour.biochemistry.reaction_rate_MichaelisMenten"),
    ("colour.biochemistry.substrate_concentration_MichealisMenten",
     "colour.biochemistry.substrate_concentration_MichaelisMenten")]
  objectRemoved := []
  objectFutureRenamed := []
  objectFutureRemoved := []
  changedRules := []

/-- The change table installed on the biochemistry sub-package. -/
def biochemistry_changes : ChangeTable := build_API_changes API_CHANGES

/-- `__all__` of `colour/biochemistry/__init__.py`: the two initial lists
concatenated. -/
def biochemistry_all : List String := [
  "REACTION_RATE_MICHAELISMENTEN_METHODS", "reaction_rate_MichaelisMenten",
  "SUBSTRATE_CONCENTRATION_MICHAELISMENTEN_METHODS",
  "substrate_concentration_MichaelisMenten"] ++ [
  "reaction_rate_MichaelisMenten_Michaelis1913",
  "substrate_concentration_MichaelisMenten_Michaelis1913",
  "reaction_rate_MichaelisMenten_Abebe2017",
  "substrate_concentration_MichaelisMenten_Abebe2017"]

/-- The biochemistry module object, its attributes being the names imported
from `.michaelis_menten`; the objects themselves are abstracted as distinct
numeric identities. -/
def biochemistry_module : PyModule Nat where
  modName := "colour.biochemistry"
  attrs := [
    ("REACTION_RATE_MICHAELISMENTEN_METHODS", 0),
    ("reaction_rate_MichaelisMenten", 1),
    ("SUBSTRATE_CONCENTRATION_MICHAELISMENTEN_METHODS", 2),
    ("substrate_concentration_MichaelisMenten", 3),
    ("reaction_rate_MichaelisMenten_Michaelis1913", 4),
    ("substrate_concentration_MichaelisMenten_Michaelis1913", 5),
    ("reaction_rate_MichaelisMenten_Abebe2017", 6),
    ("substrate_concentration_MichaelisMenten_Abebe2017", 7)]

/-- Split a string at every dot (structural recursion over the characters). -/
def splitDots (s : String) : List String :=
  (s.toList.foldr (fun c acc =>
     if c = '.' then [] :: acc
     else (c :: acc.headD []) :: acc.tail) [[]]).map String.mk

/-- Resolution of fully-qualified `colour.biochemistry.<attr>` names from the
root namespace: the dotted path is followed down to an ordinary attribute of
the biochemistry module. -/
def biochemistry_root (s : String) : Option Nat :=
  match splitDots s with
  | ["colour", "biochemistry", a] => biochemistry_module.getattr a
  | _ => none

/-- A registry entry (an entry of `sys.modules`): either the original module
object or the `RedirectingModule` wrapper holding the module and its table. -/
inductive ModuleEntry (α : Type) where
  | plain (mo : PyModule α)
  | wrapped (mo : PyModule α) (t : ChangeTable)

/-- The process-wide module registry (`sys.modules`), as a map from module
name to entry. -/
abbrev Registry (α : Type) : Type := String → Option (ModuleEntry α)

/-- Overwrite one key of the registry. -/
def registrySet {α : Type} (r : Registry α) (k : String) (e : ModuleEntry α) :
    Registry α :=
  fun s => if s == k then some e else r s

/-- Attribute access through a registry entry: a plain module only has its
ordinary attributes, while the wrapper resolves through the change table. -/
def entryAccess {α : Type} (root : String → Option α) (e : ModuleEntry α)
    (name : String) : Resolution α :=
  match e with
  | ModuleEntry.plain mo =>
    match mo.getattr name with
    | some v => Resolution.ok v []
    | none => Resolution.attributeNotFound mo.modName name
  | ModuleEntry.wrapped mo t => resolve root mo t name

/-- The guarded install step of `colour/biochemistry/__init__.py` (lines
60-64): when documentation is not being built, `sys.modules` gets the entry
`colour.biochemistry` replaced by the wrapper built over the original module
and `build_API_changes API_CHANGES`; otherwise nothing happens.  The
predicate `is_documentation_building` lives outside the excerpt and is passed
in as the boolean `docsBuilding`; the source assumes a plain module is
registered, so any other entry is left unchanged. -/
def install_biochemistry {α : Type} (docsBuilding : Bool) (r : Registry α) :
    Registry α :=
  if docsBuilding then r
  else
    match r "colour.biochemistry" with
    | some (ModuleEntry.plain mo) =>
      registrySet r "colour.biochemistry" (ModuleEntry.wrapped mo biochemistry_changes)
    | _ => r

/-- A registry holding only the original (unwrapped) biochemistry module,
used to instantiate the install theorem. -/
def biochemistry_registry : Registry Nat :=
  fun s => if s == "colour.biochemistry" then
    some (ModuleEntry.plain biochemistry_module) else none

/-- A demonstration table with one Changed rule, built by the builder. -/
def changed_demo_table : ChangeTable :=
  build_API_changes ⟨[], [], [], [], [("pkg.changed_fn", "changed_fn behaviour changed.")]⟩

/-- A demonstration module owning the attribute the Changed rule is about. -/
def changed_demo_module : PyModule Nat := ⟨"pkg", [("changed_fn", 5)]⟩

/-- `np.expm1 x = exp x - 1`, over exact reals. -/
noncomputable def expm1 (x : ℝ) : ℝ := Real.exp x - 1

/-- `CONSTANT_C1` of `colour/colorimetry/blackbody.py`. -/
noncomputable def CONSTANT_C1 : ℝ := 3.741771e-16

/-- `CONSTANT_C2` of `colour/colorimetry/blackbody.py`. -/
noncomputable def CONSTANT_C2 : ℝ := 1.4388e-2

/-- `CONSTANT_N` of `colour/colorimetry/blackbody.py`. -/
noncomputable def CONSTANT_N : ℝ := 1

/-- `planck_law` of `colour/colorimetry/blackbody.py`, the spectral radiance
of a blackbody, transcribed over exact reals:
`((c1 * n**-2 * l**-5) / pi) * (expm1 (c2 / (n * l * t)))**-1`. -/
noncomputable def planck_law (wavelength temperature c1 c2 n : ℝ) : ℝ :=
  ((c1 * n ^ (-2 : ℤ) * wavelength ^ (-5 : ℤ)) / Real.pi) *
    (expm1 (c2 / (n * wavelength * temperature))) ^ (-1 : ℤ)

/-- The `SpectralDistribution` value object, reduced to the fields the
excerpt observes: the values array, the aligned domain of wavelengths, and
the name. -/
structure SpectralDistribution where
  values : List ℝ
  domain : List ℝ
  name : String

/-- `sd_blackbody` of `colour/colorimetry/blackbody.py`: the values are
`planck_law(wavelengths * 1e-9, temperature, c1, c2, n) * 1e-9` over the
wavelengths `shape.range()`, which is passed in as the list `shapeRange`
(the `SpectralShape` class lies outside the excerpt); `render` stands for
Python's f-string rendering of the temperature in the name
`f"{temperature}K Blackbody"` (written here without braces). -/
noncomputable def sd_blackbody (temperature : ℝ) (shapeRange : List ℝ)
    (c1 c2 n : ℝ) (render : ℝ → String) : SpectralDistribution where
  values := shapeRange.map (fun w => planck_law (w * 1e-9) temperature c1 c2 n * 1e-9)
  domain := shapeRange
  name := render temperature ++ "K Blackbody"

theorem string_data_append (a b : String) : (a ++ b).data = a.data ++ b.data := rfl

/-- Claim C1: for every rule of kind Renamed (and FutureRenamed) in the change
table, resolving the old unqualified name on the redirecting module returns
the exact object the new qualified name resolves to from the root, and emits
exactly one warning whose text mentions both the old and the new qualified
name. -/
theorem C1_renamed_resolves_to_new_target {α : Type} (root : String → Option α)
    (m : PyModule α) (t : ChangeTable) (name oldN newN : String) (v : α)
    (hrule : tableLookup t name = some (ChangeRule.Renamed oldN newN) ∨
      tableLookup t name = some (ChangeRule.FutureRenamed oldN newN))
    (hroot : root newN = some v) :
    ∃ w, resolve root m t name = Resolution.ok v [w] ∧
      ∃ l1 l2 l3, w.data = l1 ++ oldN.data ++ l2 ++ newN.data ++ l3 := by
  rcases hrule with h | h
  · refine ⟨renamed_warning oldN newN, by simp [resolve, h, hroot], [],
      (" attribute is no longer available, please use \x27" : String).data,
      ("\x27 attribute." : String).data, ?_⟩
    simp [renamed_warning, string_data_append, List.append_assoc]
  · refine ⟨future_renamed_warning oldN newN, by simp [resolve, h, hroot], [],
      (" attribute will no longer be available, please use \x27" : String).data,
      ("\x27 attribute." : String).data, ?_⟩
    simp [future_renamed_warning, string_data_append, List.append_assoc]

/-- Witness for C1 at the biochemistry wrapper: the misspelled
`reaction_rate_MichealisMenten` resolves to the same object (identity `1`) as
the qualified `colour.biochemistry.reaction_rate_MichaelisMenten`, with one
warning naming both. -/
theorem C1_witness :
    tableLookup biochemistry_changes "reaction_rate_MichealisMenten" =
      some (ChangeRule.Renamed "colour.biochemistry.reaction_rate_MichealisMenten"
        "colour.biochemistry.reaction_rate_MichaelisMenten") ∧
    biochemistry_root "colour.biochemistry.reaction_rate_MichaelisMenten" = some 1 ∧
    biochemistry_module.getattr "reaction_rate_MichaelisMenten" = some 1 ∧
    ∃ w, resolve biochemistry_root biochemistry_module biochemistry_changes
        "reaction_rate_MichealisMenten" = Resolution.ok 1 [w] ∧
      ∃ l1 l2 l3, w.data = l1 ++
        ("colour.biochemistry.reaction_rate_MichealisMenten" : String).data ++ l2 ++
        ("colour.biochemistry.reaction_rate_MichaelisMenten" : String).data ++ l3 :=
  ⟨rfl, rfl, rfl,
    C1_renamed_resolves_to_new_target biochemistry_root biochemistry_module
      biochemistry_changes "reaction_rate_MichealisMenten" _ _ 1 (Or.inl rfl) rfl⟩

/-- Claim C2: a name that is neither a key of the change table nor an
attribute of the wrapped module resolves to an AttributeNotFound failure
naming both the module and the attribute; no value is returned. -/
theorem C2_unknown_name_not_found {α : Type} (root : String → Option α)
    (m : PyModule α) (t : ChangeTable) (name : String)
    (hTable : tableLookup t name = none) (hAttr : m.getattr name = none) :
    resolve root m t name = Resolution.attributeNotFound m.modName name := by
  simp [resolve, hTable, hAttr]

/-- Witness for C2: an attribute never declared anywhere fails with
AttributeNotFound on the biochemistry wrapper. -/
theorem C2_witness :
    tableLookup biochemistry_changes "undefined_attribute" = none ∧
    biochemistry_module.getattr "undefined_attribute" = none ∧
    resolve biochemistry_root biochemistry_module biochemistry_changes
      "undefined_attribute" =
      Resolution.attributeNotFound "colour.biochemistry" "undefined_attribute" :=
  ⟨rfl, rfl,
    C2_unknown_name_not_found biochemistry_root biochemistry_module
      biochemistry_changes "undefined_attribute" rfl rfl⟩

/-- Claim C3: a Removed rule makes resolution of the old name fail with an
AttributeRemoved error carrying the old qualified name; no value is returned
(the failure is the whole outcome of the call). -/
theorem C3_removed_is_fatal {α : Type} (root : String → Option α)
    (m : PyModule α) (t : ChangeTable) (name oldN : String)
    (h : tableLookup t name = some (ChangeRule.Removed oldN)) :
    resolve root m t name = Resolution.attributeRemoved oldN := by
  simp [resolve, h]

/-- Witness for C3 on a table built from one ObjectRemoved descriptor. -/
theorem C3_witness :
    tableLookup (build_API_changes ⟨[], ["pkg.gone_fn"], [], [], []⟩) "gone_fn" =
      some (ChangeRule.Removed "pkg.gone_fn") ∧
    resolve (fun _ => (none : Option Nat)) ⟨"pkg", []⟩
      (build_API_changes ⟨[], ["pkg.gone_fn"], [], [], []⟩) "gone_fn" =
      Resolution.attributeRemoved "pkg.gone_fn" :=
  ⟨rfl,
    C3_removed_is_fatal (fun _ => (none : Option Nat)) ⟨"pkg", []⟩
      (build_API_changes ⟨[], ["pkg.gone_fn"], [], [], []⟩) "gone_fn"
      "pkg.gone_fn" rfl⟩

/-- Claim C4: a name absent from the change table but present as an ordinary
attribute of the wrapped module resolves to the module's own value with an
empty warning list. -/
theorem C4_passthrough_no_warning {α : Type} (root : String → Option α)
    (m : PyModule α) (t : ChangeTable) (name : String) (v : α)
    (hTable : tableLookup t name = none) (hAttr : m.getattr name = some v) :
    resolve root m t name = Resolution.ok v [] := by
  simp [resolve, hTable, hAttr]

/-- Witness for C4: the correctly spelled name passes through untouched. -/
theorem C4_witness :
    tableLookup biochemistry_changes "reaction_rate_MichaelisMenten" = none ∧
    biochemistry_module.getattr "reaction_rate_MichaelisMenten" = some 1 ∧
    resolve biochemistry_root biochemistry_module biochemistry_changes
      "reaction_rate_MichaelisMenten" = Resolution.ok 1 [] :=
  ⟨rfl, rfl,
    C4_passthrough_no_warning biochemistry_root biochemistry_module
      biochemistry_changes "reaction_rate_MichaelisMenten" 1 rfl rfl⟩

/-- Claim C5: when two rules collide on the same key (the shared last dotted
segment of their old names), the builder raises no error and stores the
later-declared rule, which is the one observed at resolution time. -/
theorem C5_last_write_wins (old1 new1 old2 new2 : String)
    (h : lastSegment old1 = lastSegment old2) :
    tableLookup (build_API_changes ⟨[(old1, new1), (old2, new2)], [], [], [], []⟩)
      (lastSegment old2) = some (ChangeRule.Renamed old2 new2) := by
  simp [build_API_changes, tableInsert, tableLookup, h]

/-- Witness for C5: `pkg.shared_fn` and `other.shared_fn` collide on the key
`shared_fn`; the second rule is the stored one. -/
theorem C5_witness :
    lastSegment "pkg.shared_fn" = lastSegment "other.shared_fn" ∧
    tableLookup (build_API_changes ⟨[("pkg.shared_fn", "pkg.first_target"),
        ("other.shared_fn", "pkg.second_target")], [], [], [], []⟩)
      (lastSegment "other.shared_fn") =
      some (ChangeRule.Renamed "other.shared_fn" "pkg.second_target") :=
  ⟨rfl, C5_last_write_wins "pkg.shared_fn" "pkg.first_target"
    "other.shared_fn" "pkg.second_target" rfl⟩

/-- Claim C6: resolution is a pure function of the table, the module and the
name — the embedding threads no state, so reading mutates nothing — hence a
second call on the same redirecting module returns the same successful result,
and every successful call carries at most one warning (failing calls raise
exactly one error, their whole outcome). -/
theorem C6_resolution_idempotent {α : Type} (root : String → Option α)
    (m : PyModule α) (t : ChangeTable) (name : String) (v : α) (ws : List String)
    (h : resolve root m t name = Resolution.ok v ws) :
    resolve root m t name = Resolution.ok v ws ∧ ws.length ≤ 1 := by
  refine ⟨h, ?_⟩
  unfold resolve at h
  repeat' split at h
  all_goals try (injection h with h1 h2; subst h2)
  all_goals simp_all

/-- Witness for C6 at the renamed biochemistry attribute. -/
theorem C6_witness :
    resolve biochemistry_root biochemistry_module biochemistry_changes
        "reaction_rate_MichealisMenten" = Resolution.ok 1
        [renamed_warning "colour.biochemistry.reaction_rate_MichealisMenten"
          "colour.biochemistry.reaction_rate_MichaelisMenten"] ∧
      [renamed_warning "colour.biochemistry.reaction_rate_MichealisMenten"
        "colour.biochemistry.reaction_rate_MichaelisMenten"].length ≤ 1 :=
  C6_resolution_idempotent biochemistry_root biochemistry_module
    biochemistry_changes "reaction_rate_MichealisMenten" 1 _ rfl

/-- Claim C7: the warning emitted for a Renamed rule is exactly
`<old> attribute is no longer available, please use '<new>' attribute.` with
the stored qualified names substituted, and for a Changed rule the stored
message is emitted verbatim. -/
theorem C7_warning_formats {α : Type} (root : String → Option α)
    (m : PyModule α) (t : ChangeTable) (name : String) :
    (∀ oldN newN v, tableLookup t name = some (ChangeRule.Renamed oldN newN) →
      root newN = some v →
      resolve root m t name = Resolution.ok v
        [oldN ++ " attribute is no longer available, please use \x27" ++
          newN ++ "\x27 attribute."]) ∧
    (∀ oldN msg v, tableLookup t name = some (ChangeRule.Changed oldN msg) →
      m.getattr name = some v →
      resolve root m t name = Resolution.ok v [msg]) := by
  constructor
  · intro oldN newN v h hr
    simp [resolve, h, hr, renamed_warning]
  · intro oldN msg v h hg
    simp [resolve, h, hg]

/-- Witness for C7: the concrete biochemistry warning text, and a Changed
rule whose stored message comes back verbatim. -/
theorem C7_witness :
    resolve biochemistry_root biochemistry_module biochemistry_changes
      "reaction_rate_MichealisMenten" = Resolution.ok 1
      ["colour.biochemistry.reaction_rate_MichealisMenten attribute is no longer available, please use \x27colour.biochemistry.reaction_rate_MichaelisMenten\x27 attribute."] ∧
    resolve (fun _ => (none : Option Nat)) changed_demo_module changed_demo_table
      "changed_fn" = Resolution.ok 5 ["changed_fn behaviour changed."] :=
  ⟨(C7_warning_formats biochemistry_root biochemistry_module biochemistry_changes
      "reaction_rate_MichealisMenten").1 _ _ 1 rfl rfl,
    (C7_warning_formats (fun _ => (none : Option Nat)) changed_demo_module
      changed_demo_table "changed_fn").2 _ _ 5 rfl rfl⟩

/-- Claim C8: the wrapper is installed in place of `colour.biochemistry` in
the module registry only when documentation is not being built; when it is,
the registry is left untouched, and on the unwrapped module the deprecated
misspelled name does not resolve at all. -/
theorem C8_install_guarded_by_docs {α : Type} (r : Registry α) (mo : PyModule α)
    (h : r "colour.biochemistry" = some (ModuleEntry.plain mo)) :
    install_biochemistry true r = r ∧
    install_biochemistry false r "colour.biochemistry" =
      some (ModuleEntry.wrapped mo biochemistry_changes) ∧
    entryAccess biochemistry_root (ModuleEntry.plain biochemistry_module)
      "reaction_rate_MichealisMenten" =
      Resolution.attributeNotFound "colour.biochemistry"
        "reaction_rate_MichealisMenten" := by
  refine ⟨rfl, ?_, rfl⟩
  simp [install_biochemistry, h, registrySet]

/-- Witness for C8 on the singleton registry holding the plain module. -/
theorem C8_witness :
    biochemistry_registry "colour.biochemistry" =
      some (ModuleEntry.plain biochemistry_module) ∧
    install_biochemistry true biochemistry_registry = biochemistry_registry ∧
    install_biochemistry false biochemistry_registry "colour.biochemistry" =
      some (ModuleEntry.wrapped biochemistry_module biochemistry_changes) ∧
    entryAccess biochemistry_root (ModuleEntry.plain biochemistry_module)
      "reaction_rate_MichealisMenten" =
      Resolution.attributeNotFound "colour.biochemistry"
        "reaction_rate_MichealisMenten" :=
  ⟨rfl, (C8_install_guarded_by_docs biochemistry_registry biochemistry_module rfl).1,
    (C8_install_guarded_by_docs biochemistry_registry biochemistry_module rfl).2.1,
    (C8_install_guarded_by_docs biochemistry_registry biochemistry_module rfl).2.2⟩

/-- Claim C9: the table built from the biochemistry `API_CHANGES` holds
exactly the two misspelled keys, each a Renamed rule targeting the correctly
spelled qualified name of the same package; neither misspelled key occurs in
`__all__`, all of whose entries are ordinary attributes of the module. -/
theorem C9_biochemistry_table_shape :
    biochemistry_changes = [
      ("reaction_rate_MichealisMenten",
       ChangeRule.Renamed "colour.biochemistry.reaction_rate_MichealisMenten"
         "colour.biochemistry.reaction_rate_MichaelisMenten"),
      ("substrate_concentration_MichealisMenten",
       ChangeRule.Renamed "colour.biochemistry.substrate_concentration_MichealisMenten"
         "colour.biochemistry.substrate_concentration_MichaelisMenten")] ∧
    biochemistry_all.contains "reaction_rate_MichealisMenten" = false ∧
    biochemistry_all.contains "substrate_concentration_MichealisMenten" = false ∧
    biochemistry_all.all (fun a => (biochemistry_module.getattr a).isSome) = true :=
  ⟨rfl, rfl, rfl, rfl⟩

/-- Claim C10: `sd_blackbody` is a pointwise wrapper of `planck_law`: its
domain is exactly the shape's wavelength range, its name renders the
temperature followed by `K Blackbody`, and the value at every index of the
range is `planck_law (w * 1e-9) T c1 c2 n * 1e-9` — nanometre-to-metre input
scaling and per-nanometre output scaling. -/
theorem C10_sd_blackbody_pointwise (temperature c1 c2 n : ℝ)
    (shapeRange : List ℝ) (render : ℝ → String) (i : ℕ) :
    (sd_blackbody temperature shapeRange c1 c2 n render).domain = shapeRange ∧
    (sd_blackbody temperature shapeRange c1 c2 n render).name =
      render temperature ++ "K Blackbody" ∧
    (sd_blackbody temperature shapeRange c1 c2 n render).values.length =
      shapeRange.length ∧
    (sd_blackbody temperature shapeRange c1 c2 n render).values[i]? =
      (shapeRange[i]?).map
        (fun w => planck_law (w * 1e-9) temperature c1 c2 n * 1e-9) := by
  refine ⟨rfl, rfl, ?_, ?_⟩
  · simp [sd_blackbody]
  · simp [sd_blackbody]

end ColourSpec
